import Mathlib

/-!
Shallow embedding of `src/visualize.py`, a script that (line by line)
takes `input_filename = Path(sys.argv[1])`, loads
`df = pd.read_csv(input_filename)`, converts column 0 in place with
`df[df.columns[0]] = pd.to_datetime(df[df.columns[0]], unit='s')`, sizes
the figure with `w, h = plt.figaspect(1/3)` and `plt.figure(figsize=(w, h))`,
labels the axes with `plt.xlabel('Date/Time')` and
`plt.ylabel('Concurrent GH action jobs')`, draws
`plt.plot(df[df.columns[0]], df[df.columns[1]])` and saves
`plt.savefig(str(input_filename.stem) + ".png")`.

The process is modelled as a pure function from the argument vector and the
file system (a map from path to optional file content) to an optional
`RunOutput`.  `none` models the process dying with an uncaught exception
(non-zero exit status, no output file written); `some out` models a normal
exit where the single file `out.outputFile` is written, containing the
rendered figure `out.figure`.
-/

/-- Splitting a character list at a separator character, accumulator version.
Models Python `str.split` with a single-character separator. -/
def splitOnCharAux (sep : Char) : List Char → List Char → List (List Char)
  | [], acc => [acc.reverse]
  | c :: cs, acc =>
      if c = sep then acc.reverse :: splitOnCharAux sep cs []
      else splitOnCharAux sep cs (c :: acc)

/-- Split a character list at every occurrence of `sep`. -/
def splitOnChar (sep : Char) (cs : List Char) : List (List Char) :=
  splitOnCharAux sep cs []

/-- Digits of a decimal numeral, most significant first, folded into a `Nat`.
`none` when the list is empty at the start or a non-digit occurs. -/
def digitsToNatAux : List Char → Nat → Option Nat
  | [], acc => some acc
  | c :: cs, acc =>
      if c.isDigit then digitsToNatAux cs (acc * 10 + (c.toNat - 48)) else none

/-- Parse a nonempty all-digit character list as a `Nat`. -/
def digitsToNat : List Char → Option Nat
  | [] => none
  | c :: cs => digitsToNatAux (c :: cs) 0

/-- Parse an optionally signed decimal integer, as pandas' numeric sniffing
accepts for an integer CSV field. -/
def intOfChars : List Char → Option Int
  | [] => none
  | c :: cs =>
      if c = '-' then (digitsToNat cs).map (fun n => -(n : Int))
      else if c = '+' then (digitsToNat cs).map (fun n => (n : Int))
      else (digitsToNat (c :: cs)).map (fun n => (n : Int))

/-- A CSV cell after `pd.read_csv` type inference: integral fields become
numbers, everything else stays a string. -/
inductive Cell where
  | num : Int → Cell
  | str : String → Cell
deriving DecidableEq, Repr

instance : Inhabited Cell := ⟨Cell.str ""⟩

/-- Model of `pd.read_csv` type inference on one field. -/
def inferCell (s : String) : Cell :=
  match intOfChars s.toList with
  | some n => Cell.num n
  | none => Cell.str s

/-- An in-memory data frame: the header row (column names) and the data
rows, cells type-inferred. -/
structure Csv where
  header : List String
  rows : List (List Cell)
deriving DecidableEq, Repr

/-- Model of `pd.read_csv`: split the content into lines, drop blank lines (pandas
default `skip_blank_lines=True`), take the first line as the header and
type-infer the remaining ones.  An empty file raises `EmptyDataError`,
modelled by `none`. -/
def read_csv (content : String) : Option Csv :=
  let lines := (splitOnChar '\n' content.toList).filter (fun l => !l.isEmpty)
  match lines with
  | [] => none
  | h :: t =>
      some { header := (splitOnChar ',' h).map (fun cs => String.mk cs),
             rows := t.map (fun l => (splitOnChar ',' l).map (fun cs => inferCell (String.mk cs))) }

/-- Positional column selection `df[df.columns[i]]`, as a list of cells in
row order.  A row missing the field yields a padding cell, as pandas pads
short rows. -/
def colByIndex (df : Csv) (i : Nat) : List Cell :=
  df.rows.map (fun r => r.getD i (Cell.str ""))

/-- A pandas `Timestamp`: an absolute date/time value carried as seconds
since the Unix epoch, the resolution `unit='s'` gives. -/
structure Timestamp where
  epochSeconds : Int
deriving DecidableEq, Repr

instance : Inhabited Timestamp := ⟨⟨0⟩⟩

/-- Model of `pd.to_datetime(n, unit='s')` on one numeric value. -/
def to_datetime (n : Int) : Timestamp := ⟨n⟩

instance : LT Timestamp := ⟨fun a b => a.epochSeconds < b.epochSeconds⟩

instance (a b : Timestamp) : Decidable (a < b) :=
  inferInstanceAs (Decidable (a.epochSeconds < b.epochSeconds))

/-- Model of `pd.to_datetime(series, unit='s')` over a whole column: every cell must
be numeric, otherwise the call raises (`none`). -/
def to_datetime_col : List Cell → Option (List Timestamp)
  | [] => some []
  | Cell.num n :: cs => (to_datetime_col cs).map (fun ts => to_datetime n :: ts)
  | Cell.str _ :: _ => none

/-- Minimum of two rationals, as `np.minimum` does componentwise. -/
def qmin (a b : ℚ) : ℚ := if a ≤ b then a else b

/-- Maximum of two rationals, as `np.maximum` does componentwise. -/
def qmax (a b : ℚ) : ℚ := if a ≤ b then b else a

/-- matplotlib default `rcParams["figure.figsize"]` = `[6.4, 4.8]`. -/
def rcFigsize : ℚ × ℚ := (32 / 5, 24 / 5)

/-- Model of `matplotlib.pyplot.figaspect(arg)` for a scalar `arg`: starting from the
default figure height, compute a width so that height/width = `arg`, then
clip the pair to the box `[4,16] × [2,16]` after a common rescale that
enforces the minimum. -/
def figaspect (arg : ℚ) : ℚ × ℚ :=
  let figsizeMin : ℚ × ℚ := (4, 2)
  let figsizeMax : ℚ × ℚ := (16, 16)
  let figHeight : ℚ := rcFigsize.2
  let newsize : ℚ × ℚ := (figHeight / arg, figHeight)
  let c : ℚ := qmin 1 (qmin (newsize.1 / figsizeMin.1) (newsize.2 / figsizeMin.2))
  let newsize : ℚ × ℚ := (newsize.1 / c, newsize.2 / c)
  let newsize : ℚ × ℚ := (qmin newsize.1 figsizeMax.1, qmin newsize.2 figsizeMax.2)
  (qmax newsize.1 figsizeMin.1, qmax newsize.2 figsizeMin.2)

/-- Components of a path string, as pathlib parses them: split at slashes, drop empty
parts and single-dot parts (pathlib normalizes both away). -/
def pathParts (p : String) : List (List Char) :=
  (splitOnChar '/' p.toList).filter (fun c => !c.isEmpty && c ≠ ['.'])

/-- Model of `Path(p).name`: the final path component, `""` when there is none. -/
def pathName (p : String) : List Char :=
  (pathParts p).getLast?.getD []

/-- Index of the last occurrence of `'.'`, as CPython `str.rfind('.')`. -/
def rfindDotAux : List Char → Nat → Option Nat → Option Nat
  | [], _, best => best
  | c :: cs, i, best => rfindDotAux cs (i + 1) (if c = '.' then some i else best)

/-- Index of the last `'.'` in a character list, if any. -/
def rfindDot (l : List Char) : Option Nat := rfindDotAux l 0 none

/-- Model of `Path(p).stem`: the final component without its suffix.  Following
pathlib, the suffix is cut only when the last dot is neither the first nor
the last character of the name. -/
def pathStem (p : String) : String :=
  match rfindDot (pathName p) with
  | some i =>
      if 0 < i ∧ i < (pathName p).length - 1 then String.mk ((pathName p).take i)
      else String.mk (pathName p)
  | none => String.mk (pathName p)

/-- The rendered figure: matplotlib state the script sets, plus the plotted
points.  `title`/`legendShown` keep their matplotlib defaults since the
script never calls `plt.title`/`plt.legend`. -/
structure Figure where
  figsize : ℚ × ℚ
  xlabel : String
  ylabel : String
  title : Option String
  legendShown : Bool
  points : List (Timestamp × Cell)
deriving DecidableEq, Repr

/-- Result of a successful run: the one file written by `plt.savefig`, and
the figure rendered into it. -/
structure RunOutput where
  outputFile : String
  figure : Figure
deriving DecidableEq, Repr

/-- The output the script builds once every fallible step has succeeded:
`p` the input path, `df` the loaded frame, `ts` the converted column 0. -/
def mkOutput (p : String) (df : Csv) (ts : List Timestamp) : RunOutput :=
  { outputFile := pathStem p ++ ".png",
    figure := { figsize := figaspect (1 / 3),
                xlabel := "Date/Time",
                ylabel := "Concurrent GH action jobs",
                title := none,
                legendShown := false,
                points := ts.zip (colByIndex df 1) } }

/-- The whole script.  `argv` is `sys.argv` (index 0 the script name), `fs`
maps a path to the content of the file there if one exists.  Each `none`
case is an uncaught Python exception: `IndexError` on a missing argument,
an IO error on a missing file, a parse error from `read_csv`, a conversion
error from `to_datetime`, a `KeyError`/`IndexError` on a missing column. -/
def run (argv : List String) (fs : String → Option String) : Option RunOutput :=
  match argv.get? 1 with
  | none => none
  | some p =>
    match fs p with
    | none => none
    | some content =>
      match read_csv content with
      | none => none
      | some df =>
        match df.header.get? 0 with
        | none => none
        | some _ =>
          match to_datetime_col (colByIndex df 0) with
          | none => none
          | some ts =>
            match df.header.get? 1 with
            | none => none
            | some _ => some (mkOutput p df ts)

/-- Civil (proleptic Gregorian, UTC) date and time of day. -/
structure CivilDateTime where
  year : Int
  month : Int
  day : Int
  hour : Int
  minute : Int
  second : Int
deriving DecidableEq, Repr

/-- Civil date from a count of days since 1970-01-01 (Gregorian calendar
algorithm over eras of 146097 days). -/
def civilFromDays (z0 : Int) : Int × Int × Int :=
  let z := z0 + 719468
  let era := (if 0 ≤ z then z else z - 146096) / 146097
  let doe := z - era * 146097
  let yoe := (doe - doe / 1460 + doe / 36524 - doe / 146096) / 365
  let y := yoe + era * 400
  let doy := doe - (365 * yoe + yoe / 4 - yoe / 100)
  let mp := (5 * doy + 2) / 153
  let d := doy - (153 * mp + 2) / 5 + 1
  let m := if mp < 10 then mp + 3 else mp - 9
  (y + (if m ≤ 2 then 1 else 0), m, d)

/-- The civil UTC reading of a timestamp, seconds resolution. -/
def toCivil (t : Timestamp) : CivilDateTime :=
  let days := t.epochSeconds.fdiv 86400
  let sod := t.epochSeconds.emod 86400
  let ymd := civilFromDays days
  { year := ymd.1, month := ymd.2.1, day := ymd.2.2,
    hour := sod / 3600, minute := sod % 3600 / 60, second := sod % 60 }

/-! ### Basic lemmas about the embedding -/

theorem splitOnCharAux_sep_not_mem (sep : Char) :
    ∀ (cs acc : List Char), (∀ c ∈ acc, c ≠ sep) →
      ∀ l ∈ splitOnCharAux sep cs acc, ∀ c ∈ l, c ≠ sep := by
  intro cs
  induction cs with
  | nil =>
      intro acc hacc l hl c hc
      simp only [splitOnCharAux, List.mem_singleton] at hl
      subst hl
      exact hacc c (List.mem_reverse.mp hc)
  | cons d ds ih =>
      intro acc hacc l hl c hc
      by_cases hd : d = sep
      · rw [splitOnCharAux, if_pos hd] at hl
        rcases List.mem_cons.mp hl with h | h
        · subst h
          exact hacc c (List.mem_reverse.mp hc)
        · exact ih [] (by simp) l h c hc
      · rw [splitOnCharAux, if_neg hd] at hl
        refine ih (d :: acc) ?_ l hl c hc
        intro e he
        rcases List.mem_cons.mp he with h | h
        · subst h; exact hd
        · exact hacc e h

theorem splitOnChar_sep_not_mem (sep : Char) (cs : List Char) :
    ∀ l ∈ splitOnChar sep cs, ∀ c ∈ l, c ≠ sep :=
  splitOnCharAux_sep_not_mem sep cs [] (by simp)

theorem pathName_no_slash (p : String) : ∀ c ∈ pathName p, c ≠ '/' := by
  intro c hc
  unfold pathName at hc
  cases h : (pathParts p).getLast? with
  | none => rw [h] at hc; simp at hc
  | some l =>
      rw [h] at hc
      simp only [Option.getD_some] at hc
      have hl : l ∈ pathParts p := by
        obtain ⟨hne, rfl⟩ := List.mem_getLast?_eq_getLast (show l ∈ (pathParts p).getLast? by simp [h])
        exact List.getLast_mem hne
      have hl2 : l ∈ splitOnChar '/' p.toList := List.mem_of_mem_filter hl
      exact splitOnChar_sep_not_mem '/' p.toList l hl2 c hc

theorem pathStem_no_slash (p : String) : '/' ∉ (pathStem p).toList := by
  have hname : '/' ∉ pathName p := fun h => pathName_no_slash p '/' h rfl
  unfold pathStem
  split
  next i h =>
    split
    next hi =>
      intro hmem
      exact hname (List.take_subset i (pathName p) hmem)
    next hi =>
      intro hmem
      exact hname hmem
  next h =>
    intro hmem
    exact hname hmem

theorem to_datetime_col_length :
    ∀ (cells : List Cell) (ts : List Timestamp),
      to_datetime_col cells = some ts → ts.length = cells.length := by
  intro cells
  induction cells with
  | nil =>
      intro ts h
      simp only [to_datetime_col, Option.some.injEq] at h
      subst h; rfl
  | cons c cs ih =>
      intro ts h
      cases c with
      | num n =>
          simp only [to_datetime_col, Option.map_eq_some'] at h
          obtain ⟨ts', hts', rfl⟩ := h
          simp [ih ts' hts']
      | str s => simp [to_datetime_col] at h

theorem to_datetime_col_get? :
    ∀ (cells : List Cell) (ts : List Timestamp), to_datetime_col cells = some ts →
      ∀ (i : Nat) (n : Int), cells.get? i = some (Cell.num n) →
        ts.get? i = some (to_datetime n) := by
  intro cells
  induction cells with
  | nil => intro ts h i n hi; simp at hi
  | cons c cs ih =>
      intro ts h i n hi
      cases c with
      | num m =>
          simp only [to_datetime_col, Option.map_eq_some'] at h
          obtain ⟨ts', hts', rfl⟩ := h
          cases i with
          | zero =>
              simp only [List.get?_cons_zero, Option.some.injEq] at hi
              cases hi
              rfl
          | succ i =>
              simp only [List.get?_cons_succ] at hi ⊢
              exact ih ts' hts' i n hi
      | str s => simp [to_datetime_col] at h

theorem to_datetime_col_none_of_str :
    ∀ (cells : List Cell) (s : String), Cell.str s ∈ cells → to_datetime_col cells = none := by
  intro cells
  induction cells with
  | nil => intro s hs; simp at hs
  | cons c cs ih =>
      intro s hs
      cases c with
      | num n =>
          have hcs : Cell.str s ∈ cs := by
            rcases List.mem_cons.mp hs with h | h
            · exact absurd h (by simp)
            · exact h
          simp [to_datetime_col, ih s hcs]
      | str t => simp [to_datetime_col]

/-- Inversion principle for a successful run: exactly the fallible steps of
the script, in order, with the output determined by the surviving data. -/
theorem run_eq_some_iff (argv : List String) (fs : String → Option String) (out : RunOutput) :
    run argv fs = some out ↔
      ∃ (p content : String) (df : Csv) (ts : List Timestamp),
        argv.get? 1 = some p ∧ fs p = some content ∧ read_csv content = some df ∧
        to_datetime_col (colByIndex df 0) = some ts ∧
        2 ≤ df.header.length ∧ out = mkOutput p df ts := by
  constructor
  · intro h
    unfold run at h
    split at h
    · cases h
    next p h1 =>
      split at h
      · cases h
      next content h2 =>
        split at h
        · cases h
        next df h3 =>
          split at h
          · cases h
          next c0 h4 =>
            split at h
            · cases h
            next ts h5 =>
              split at h
              · cases h
              next c1 h6 =>
                refine ⟨p, content, df, ts, h1, h2, h3, h5, ?_, (Option.some.inj h).symm⟩
                obtain ⟨hlt, -⟩ := List.get?_eq_some.mp h6
                exact hlt
  · rintro ⟨p, content, df, ts, h1, h2, h3, h5, hlen, rfl⟩
    have e0 : df.header.get? 0 = some (df.header.get ⟨0, by omega⟩) := List.get?_eq_get (by omega)
    have e1 : df.header.get? 1 = some (df.header.get ⟨1, by omega⟩) := List.get?_eq_get (by omega)
    unfold run
    simp only [h1, h2, h3, e0, h5, e1]

/-! ### Concrete fixtures used by the examples and witnesses -/

/-- Content of the end-to-end example file `jobs.csv`. -/
def jobsCsv : String := "timestamp,count\n1700000000,3\n1700003600,5\n1700007200,2\n"

/-- Data frame the example file loads to. -/
def dfJobs : Csv :=
  { header := ["timestamp", "count"],
    rows := [[Cell.num 1700000000, Cell.num 3],
             [Cell.num 1700003600, Cell.num 5],
             [Cell.num 1700007200, Cell.num 2]] }

/-- A file system holding the example file under a subdirectory. -/
def fsJobs : String → Option String :=
  fun q => if q = "data/jobs.csv" then some jobsCsv else none

/-- The same file system with a stale `jobs.png` already present in the
current working directory. -/
def fsJobsStale : String → Option String :=
  fun q =>
    if q = "data/jobs.csv" then some jobsCsv
    else if q = "jobs.png" then some "stale image bytes" else none

/-- The figure the example input renders to. -/
def figJobs : Figure :=
  { figsize := (72 / 5, 24 / 5),
    xlabel := "Date/Time",
    ylabel := "Concurrent GH action jobs",
    title := none,
    legendShown := false,
    points := [(⟨1700000000⟩, Cell.num 3), (⟨1700003600⟩, Cell.num 5), (⟨1700007200⟩, Cell.num 2)] }

/-- The full run output for the example input. -/
def outJobs : RunOutput := { outputFile := "jobs.png", figure := figJobs }

/-- Content of an input file whose first column is not numeric. -/
def badCsv : String := "timestamp,count\nabc,5\n"

/-- Data frame the bad file loads to. -/
def dfBad : Csv := { header := ["timestamp", "count"], rows := [[Cell.str "abc", Cell.num 5]] }

/-- File system holding the bad file. -/
def fsBad : String → Option String := fun q => if q = "bad.csv" then some badCsv else none

/-- Content of an input file whose rows are not in chronological order. -/
def revCsv : String := "timestamp,count\n1700007200,2\n1700000000,3\n"

/-- Data frame the reversed file loads to. -/
def dfRev : Csv :=
  { header := ["timestamp", "count"],
    rows := [[Cell.num 1700007200, Cell.num 2], [Cell.num 1700000000, Cell.num 3]] }

/-- Converted column 0 of the reversed file, still in table order. -/
def tsRev : List Timestamp := [⟨1700007200⟩, ⟨1700000000⟩]

/-- File system holding the reversed file. -/
def fsRev : String → Option String := fun q => if q = "rev.csv" then some revCsv else none

/-- The figure the reversed input renders to. -/
def figRev : Figure :=
  { figsize := (72 / 5, 24 / 5),
    xlabel := "Date/Time",
    ylabel := "Concurrent GH action jobs",
    title := none,
    legendShown := false,
    points := [(⟨1700007200⟩, Cell.num 2), (⟨1700000000⟩, Cell.num 3)] }

/-- The run output for the reversed input. -/
def outRev : RunOutput := { outputFile := "rev.png", figure := figRev }

/-- The reversed file with an extra third column appended. -/
def wideCsv : String := "timestamp,count,extra\n1700007200,2,99\n1700000000,3,77\n"

/-- Data frame the three-column file loads to. -/
def dfWide : Csv :=
  { header := ["timestamp", "count", "extra"],
    rows := [[Cell.num 1700007200, Cell.num 2, Cell.num 99],
             [Cell.num 1700000000, Cell.num 3, Cell.num 77]] }

/-- File system holding the three-column file. -/
def fsWide : String → Option String := fun q => if q = "wide.csv" then some wideCsv else none

/-- The run output for the three-column input: same figure as the
two-column reversed input. -/
def outWide : RunOutput := { outputFile := "wide.png", figure := figRev }

/-- Content of an input file with a header row and zero data rows. -/
def emptyCsv : String := "timestamp,count\n"

/-- Data frame the header-only file loads to. -/
def dfEmptyRows : Csv := { header := ["timestamp", "count"], rows := [] }

/-- File system holding the header-only file. -/
def fsEmptyRows : String → Option String :=
  fun q => if q = "empty.csv" then some emptyCsv else none

/-! ### The claims -/

/-- C1: for every input file path, a successful run writes exactly one
output file, named by the input file's base name with its extension
replaced by `.png`; its name has no directory component, so it lands in
the current working directory rather than next to the input file; and the
run does not consult the file system anywhere but at the input path, so an
existing file at the output path is silently overwritten. -/
theorem claim1_output_file_name (argv : List String) (fs fsB : String → Option String)
    (out : RunOutput) (p : String)
    (hp : argv.get? 1 = some p) (hrun : run argv fs = some out) (hagree : fsB p = fs p) :
    out.outputFile = pathStem p ++ ".png" ∧ '/' ∉ out.outputFile.toList ∧
      run argv fsB = some out := by
  obtain ⟨q, content, df, ts, h1, h2, h3, h5, hlen, rfl⟩ := (run_eq_some_iff argv fs out).mp hrun
  have hq : p = q := Option.some.inj (hp.symm.trans h1)
  subst hq
  refine ⟨rfl, ?_, ?_⟩
  · show '/' ∉ (pathStem p ++ ".png").toList
    rw [show (pathStem p ++ ".png").toList = (pathStem p).toList ++ ".png".toList by simp]
    intro hmem
    rcases List.mem_append.mp hmem with hm | hm
    · exact pathStem_no_slash p hm
    · exact absurd hm (by decide)
  · refine (run_eq_some_iff argv fsB _).mpr ⟨p, content, df, ts, h1, ?_, h3, h5, hlen, rfl⟩
    rw [hagree]
    exact h2

/-- Witness for C1: the example input placed under `data/`, run against a
file system where a stale `jobs.png` already exists in the working
directory. -/
theorem claim1_output_file_name_witness :
    outJobs.outputFile = pathStem "data/jobs.csv" ++ ".png" ∧
      '/' ∉ outJobs.outputFile.toList ∧
      run ["visualize.py", "data/jobs.csv"] fsJobsStale = some outJobs :=
  claim1_output_file_name ["visualize.py", "data/jobs.csv"] fsJobs fsJobsStale outJobs
    "data/jobs.csv" rfl (by with_unfolding_all rfl) (by with_unfolding_all rfl)

/-- C2: on the spec's end-to-end example `jobs.csv` the program writes
`jobs.png` whose three points sit at the civil UTC date/times
2023-11-14T22:13:20, 2023-11-14T23:13:20, 2023-11-15T00:13:20 with
y-values 3, 5, 2, with x-axis label "Date/Time" and y-axis label
"Concurrent GH action jobs". -/
theorem claim2_end_to_end_example :
    (run ["visualize.py", "jobs.csv"]
        (fun q => if q = "jobs.csv" then some jobsCsv else none)).map
        (fun out => (out.outputFile, out.figure.xlabel, out.figure.ylabel,
          out.figure.points.map (fun pt => (toCivil pt.1, pt.2)))) =
      some ("jobs.png", "Date/Time", "Concurrent GH action jobs",
        [(⟨2023, 11, 14, 22, 13, 20⟩, Cell.num 3),
         (⟨2023, 11, 14, 23, 13, 20⟩, Cell.num 5),
         (⟨2023, 11, 15, 0, 13, 20⟩, Cell.num 2)]) := by
  with_unfolding_all rfl

/-- C3: the epoch-to-date/time conversion of column 0 is strictly
order-preserving: when row i's raw epoch value is smaller than row j's,
the plotted x-value at position i precedes the one at position j. -/
theorem claim3_conversion_order_preserving (argv : List String)
    (fs : String → Option String) (out : RunOutput) (p content : String) (df : Csv)
    (i j : Nat) (a b : Int)
    (hp : argv.get? 1 = some p) (hf : fs p = some content)
    (hdf : read_csv content = some df) (hrun : run argv fs = some out)
    (ha : (colByIndex df 0).get? i = some (Cell.num a))
    (hb : (colByIndex df 0).get? j = some (Cell.num b))
    (hab : a < b) :
    ∃ ta tb : Timestamp,
      (out.figure.points.map Prod.fst).get? i = some ta ∧
      (out.figure.points.map Prod.fst).get? j = some tb ∧ ta < tb := by
  obtain ⟨q, content2, df2, ts, h1, h2, h3, h5, hlen, rfl⟩ :=
    (run_eq_some_iff argv fs out).mp hrun
  have hq : p = q := Option.some.inj (hp.symm.trans h1)
  subst hq
  have hc : content = content2 := Option.some.inj (hf.symm.trans h2)
  subst hc
  have hd : df = df2 := Option.some.inj (hdf.symm.trans h3)
  subst hd
  have hxs : (mkOutput p df ts).figure.points.map Prod.fst = ts := by
    show (ts.zip (colByIndex df 1)).map Prod.fst = ts
    apply List.map_fst_zip
    rw [to_datetime_col_length _ _ h5]
    simp [colByIndex]
  refine ⟨to_datetime a, to_datetime b, ?_, ?_, hab⟩
  · rw [hxs]
    exact to_datetime_col_get? _ _ h5 i a ha
  · rw [hxs]
    exact to_datetime_col_get? _ _ h5 j b hb

/-- Witness for C3 at the example input, rows 0 and 1. -/
theorem claim3_conversion_order_preserving_witness :
    ∃ ta tb : Timestamp,
      (outJobs.figure.points.map Prod.fst).get? 0 = some ta ∧
      (outJobs.figure.points.map Prod.fst).get? 1 = some tb ∧ ta < tb :=
  claim3_conversion_order_preserving ["visualize.py", "data/jobs.csv"] fsJobs outJobs
    "data/jobs.csv" jobsCsv dfJobs 0 1 1700000000 1700003600 rfl
    (by with_unfolding_all rfl) (by with_unfolding_all rfl) (by with_unfolding_all rfl)
    (by decide) (by decide) (by decide)

/-- C4: an input file holding a column-0 value that is not convertible to
an epoch-seconds number makes `pd.to_datetime` raise, before the save
step: the process exits non-zero and no output file is created. -/
theorem claim4_nonnumeric_column0 (argv : List String) (fs : String → Option String)
    (p content s : String) (df : Csv)
    (hp : argv.get? 1 = some p) (hf : fs p = some content)
    (hdf : read_csv content = some df)
    (hs : Cell.str s ∈ colByIndex df 0) :
    run argv fs = none := by
  have hnone := to_datetime_col_none_of_str (colByIndex df 0) s hs
  unfold run
  simp only [hp, hf, hdf, hnone]
  split <;> rfl

/-- Witness for C4 at the concrete file whose column 0 holds `abc`. -/
theorem claim4_nonnumeric_column0_witness :
    run ["visualize.py", "bad.csv"] fsBad = none :=
  claim4_nonnumeric_column0 ["visualize.py", "bad.csv"] fsBad "bad.csv" badCsv "abc" dfBad
    rfl (by with_unfolding_all rfl) (by with_unfolding_all rfl) (by decide)

/-- C5: invoked without an input-path argument, the program dies on
`sys.argv[1]` with an IndexError: non-zero exit and no output file. -/
theorem claim5_missing_argument (argv : List String) (fs : String → Option String)
    (h : argv.length ≤ 1) : run argv fs = none := by
  unfold run
  rw [List.get?_eq_none.mpr h]

/-- Witness for C5: only the script name on the command line. -/
theorem claim5_missing_argument_witness :
    run ["visualize.py"] fsJobs = none :=
  claim5_missing_argument ["visualize.py"] fsJobs (by decide)

/-- C6: for every successfully processed input the figure size is fixed
before drawing to `figaspect(1/3)` = (14.4, 4.8) inches, whose
width-to-height ratio is exactly 3:1. -/
theorem claim6_aspect_ratio (argv : List String) (fs : String → Option String)
    (out : RunOutput) (hrun : run argv fs = some out) :
    out.figure.figsize = (72 / 5, 24 / 5) ∧
      out.figure.figsize.1 = 3 * out.figure.figsize.2 := by
  obtain ⟨p, content, df, ts, -, -, -, -, -, rfl⟩ := (run_eq_some_iff argv fs out).mp hrun
  have h : figaspect (1 / 3) = (72 / 5, 24 / 5) := by with_unfolding_all rfl
  refine ⟨h, ?_⟩
  show (figaspect (1 / 3)).1 = 3 * (figaspect (1 / 3)).2
  rw [h]
  norm_num

/-- Witness for C6 at the example input. -/
theorem claim6_aspect_ratio_witness :
    outJobs.figure.figsize = (72 / 5, 24 / 5) ∧
      outJobs.figure.figsize.1 = 3 * outJobs.figure.figsize.2 :=
  claim6_aspect_ratio ["visualize.py", "data/jobs.csv"] fsJobs outJobs
    (by with_unfolding_all rfl)

/-- C7: the plotted trace is the converted column 0 zipped with column 1
in table order — the i-th plotted x-value comes from the i-th input row —
so the data is never re-sorted by timestamp. -/
theorem claim7_table_order (argv : List String) (fs : String → Option String)
    (out : RunOutput) (p content : String) (df : Csv) (ts : List Timestamp)
    (i : Nat) (n : Int)
    (hp : argv.get? 1 = some p) (hf : fs p = some content)
    (hdf : read_csv content = some df)
    (hts : to_datetime_col (colByIndex df 0) = some ts)
    (hrun : run argv fs = some out)
    (hcell : (colByIndex df 0).get? i = some (Cell.num n)) :
    out.figure.points = ts.zip (colByIndex df 1) ∧
      (out.figure.points.map Prod.fst).get? i = some (to_datetime n) := by
  obtain ⟨q, content2, df2, ts2, h1, h2, h3, h5, hlen, rfl⟩ :=
    (run_eq_some_iff argv fs out).mp hrun
  have hq : p = q := Option.some.inj (hp.symm.trans h1)
  subst hq
  have hc : content = content2 := Option.some.inj (hf.symm.trans h2)
  subst hc
  have hd : df = df2 := Option.some.inj (hdf.symm.trans h3)
  subst hd
  have hts2 : ts = ts2 := Option.some.inj (hts.symm.trans h5)
  subst hts2
  have hxs : (mkOutput p df ts).figure.points.map Prod.fst = ts := by
    show (ts.zip (colByIndex df 1)).map Prod.fst = ts
    apply List.map_fst_zip
    rw [to_datetime_col_length _ _ h5]
    simp [colByIndex]
  refine ⟨rfl, ?_⟩
  rw [hxs]
  exact to_datetime_col_get? _ _ h5 i n hcell

/-- Witness for C7 at the reversed input: the first plotted point is the
later timestamp, exactly as it appears in row 0. -/
theorem claim7_table_order_witness :
    outRev.figure.points = tsRev.zip (colByIndex dfRev 1) ∧
      (outRev.figure.points.map Prod.fst).get? 0 = some (to_datetime 1700007200) :=
  claim7_table_order ["visualize.py", "rev.csv"] fsRev outRev "rev.csv" revCsv dfRev tsRev
    0 1700007200 rfl (by with_unfolding_all rfl) (by with_unfolding_all rfl)
    (by with_unfolding_all rfl) (by with_unfolding_all rfl) (by decide)

/-- C8: every successfully processed input yields exactly the axis labels
"Date/Time" and "Concurrent GH action jobs", with no title and no
legend. -/
theorem claim8_axis_labels (argv : List String) (fs : String → Option String)
    (out : RunOutput) (hrun : run argv fs = some out) :
    out.figure.xlabel = "Date/Time" ∧
      out.figure.ylabel = "Concurrent GH action jobs" ∧
      out.figure.title = none ∧ out.figure.legendShown = false := by
  obtain ⟨p, content, df, ts, -, -, -, -, -, rfl⟩ := (run_eq_some_iff argv fs out).mp hrun
  exact ⟨rfl, rfl, rfl, rfl⟩

/-- Witness for C8 at the example input. -/
theorem claim8_axis_labels_witness :
    outJobs.figure.xlabel = "Date/Time" ∧
      outJobs.figure.ylabel = "Concurrent GH action jobs" ∧
      outJobs.figure.title = none ∧ outJobs.figure.legendShown = false :=
  claim8_axis_labels ["visualize.py", "data/jobs.csv"] fsJobs outJobs
    (by with_unfolding_all rfl)

/-- C9: the rendered figure depends only on columns 0 and 1 of the loaded
table: two runs whose inputs agree on those two columns row-for-row
produce the same plotted data, labels and figure, whatever extra columns
either file carries. -/
theorem claim9_depends_only_on_first_two_columns
    (argv1 argv2 : List String) (fs1 fs2 : String → Option String)
    (o1 o2 : RunOutput) (p1 p2 c1 c2 : String) (df1 df2 : Csv)
    (hp1 : argv1.get? 1 = some p1) (hf1 : fs1 p1 = some c1) (hdf1 : read_csv c1 = some df1)
    (hp2 : argv2.get? 1 = some p2) (hf2 : fs2 p2 = some c2) (hdf2 : read_csv c2 = some df2)
    (hr1 : run argv1 fs1 = some o1) (hr2 : run argv2 fs2 = some o2)
    (e0 : colByIndex df1 0 = colByIndex df2 0)
    (e1 : colByIndex df1 1 = colByIndex df2 1) :
    o1.figure = o2.figure := by
  obtain ⟨q1, d1, dd1, ts1, k1, k2, k3, k5, -, rfl⟩ := (run_eq_some_iff argv1 fs1 o1).mp hr1
  obtain ⟨q2, d2, dd2, ts2, m1, m2, m3, m5, -, rfl⟩ := (run_eq_some_iff argv2 fs2 o2).mp hr2
  have hq1 : p1 = q1 := Option.some.inj (hp1.symm.trans k1)
  subst hq1
  have hd1 : c1 = d1 := Option.some.inj (hf1.symm.trans k2)
  subst hd1
  have hdd1 : df1 = dd1 := Option.some.inj (hdf1.symm.trans k3)
  subst hdd1
  have hq2 : p2 = q2 := Option.some.inj (hp2.symm.trans m1)
  subst hq2
  have hd2 : c2 = d2 := Option.some.inj (hf2.symm.trans m2)
  subst hd2
  have hdd2 : df2 = dd2 := Option.some.inj (hdf2.symm.trans m3)
  subst hdd2
  have hts : ts1 = ts2 := by
    rw [e0] at k5
    exact Option.some.inj (k5.symm.trans m5)
  show (mkOutput p1 df1 ts1).figure = (mkOutput p2 df2 ts2).figure
  simp only [mkOutput]
  rw [hts, e1]

/-- Witness for C9: the two-column reversed file against the same data
with a third column appended; the figures coincide. -/
theorem claim9_depends_only_on_first_two_columns_witness :
    outRev.figure = outWide.figure :=
  claim9_depends_only_on_first_two_columns
    ["visualize.py", "rev.csv"] ["visualize.py", "wide.csv"] fsRev fsWide outRev outWide
    "rev.csv" "wide.csv" revCsv wideCsv dfRev dfWide
    rfl (by with_unfolding_all rfl) (by with_unfolding_all rfl)
    rfl (by with_unfolding_all rfl) (by with_unfolding_all rfl)
    (by with_unfolding_all rfl) (by with_unfolding_all rfl)
    (by decide) (by decide)

/-- C10: an input with a header row and zero data rows does not fail: the
run still writes `<stem>.png`, and the trace it contains is empty. -/
theorem claim10_header_only_input (argv : List String) (fs : String → Option String)
    (p content : String) (df : Csv)
    (hp : argv.get? 1 = some p) (hf : fs p = some content)
    (hdf : read_csv content = some df) (hrows : df.rows = [])
    (hcols : 2 ≤ df.header.length) :
    run argv fs = some (mkOutput p df []) ∧
      (mkOutput p df []).outputFile = pathStem p ++ ".png" ∧
      (mkOutput p df []).figure.points = [] := by
  have hcol : colByIndex df 0 = [] := by simp [colByIndex, hrows]
  have hts : to_datetime_col (colByIndex df 0) = some [] := by
    rw [hcol]
    decide
  exact ⟨(run_eq_some_iff argv fs _).mpr ⟨p, content, df, [], hp, hf, hdf, hts, hcols, rfl⟩,
    rfl, rfl⟩

/-- Witness for C10 at the concrete header-only file. -/
theorem claim10_header_only_input_witness :
    run ["visualize.py", "empty.csv"] fsEmptyRows = some (mkOutput "empty.csv" dfEmptyRows []) ∧
      (mkOutput "empty.csv" dfEmptyRows []).outputFile = pathStem "empty.csv" ++ ".png" ∧
      (mkOutput "empty.csv" dfEmptyRows []).figure.points = [] :=
  claim10_header_only_input ["visualize.py", "empty.csv"] fsEmptyRows "empty.csv" emptyCsv
    dfEmptyRows rfl (by with_unfolding_all rfl) (by with_unfolding_all rfl) rfl (by decide)
